/-
Verification of the DASS-21 simulation-and-checking repository.

The repository has two scripts:
  * scripts/dass21_data_simulation.py  — the Simulator: draws 21 item scores
    per (group, subject, timepoint), attenuates intervention post-baseline
    draws, sums fixed 7-item subsets into three subscale totals.
  * scripts/simulation_checking.py     — the Aggregator: group-wise means of
    the subscale totals per (group, timepoint), and intervention-minus-control
    differences per timepoint.

The embedding below models the pseudo-random stream as an arbitrary function
`d : Nat → Fin 4` (a draw per item, consumed in the source's iteration order
group → subject → timepoint → item); machine floats are modelled as exact
rationals, with numpy/pandas `round` modelled as round-half-to-even.
-/
import Mathlib

namespace Dass21

/-! ## Rounding primitives

`roundHalfEven` models `np.round` / pandas `.round` (IEEE round-half-to-even
on the exact value). -/

/-- Round to the nearest integer, ties to the even integer (numpy `np.round`). -/
def roundHalfEven (q : ℚ) : ℤ :=
  if q - Int.floor q < 1/2 then Int.floor q
  else if 1/2 < q - Int.floor q then Int.floor q + 1
  else if Int.floor q % 2 = 0 then Int.floor q else Int.floor q + 1

/-- Modelled from the spec: the alternative rounding convention named in the
design notes ("round-half-up" / round-half-away-from-zero), used only to
compare against `roundHalfEven` in the refinement claim. -/
def roundHalfAway (q : ℚ) : ℤ :=
  if 0 ≤ q then Int.floor (q + 1/2) else -Int.floor (-q + 1/2)

/-! ## Simulator constants (dass21_data_simulation.py) -/

def n_per_group : ℕ := 20

def timepoints : List String :=
  ["baseline", "3_months", "6_months", "9_months", "12_months"]

def groups : List String := ["intervention", "control"]

/-- The 21 question indices (the source's `questions = [f"Q{i}" ...]`,
kept as the numeric indices 1..21). -/
def questions : List ℕ := (List.range 21).map (fun i => i + 1)

def dass_anxiety : List ℕ := [2, 4, 7, 9, 15, 19, 20]

def dass_depression : List ℕ := [3, 5, 10, 13, 16, 17, 21]

def dass_stress : List ℕ := [1, 6, 8, 11, 12, 14, 18]

/-- The source's `apply_treatment_effect`:
`np.clip(np.round(scores * (1 - effect_size)), 0, 3).astype(int)`. -/
def apply_treatment_effect (scores : ℕ) (effect_size : ℚ) : ℤ :=
  min 3 (max 0 (roundHalfEven ((scores : ℚ) * (1 - effect_size))))

/-- Zero-padded two-digit rendering of the subject index (`f"{subject_id:02d}"`). -/
def pad2 (n : ℕ) : String :=
  if n < 10 then "0" ++ toString n else toString n

/-- The source's `full_id = f"{group[:1].upper()}{subject_id:02d}"`: the first
character of the group name upper-cased, then the zero-padded subject index. -/
def full_id (group : String) (subject_id : ℕ) : String :=
  String.mk ((group.data.take 1).map Char.toUpper) ++ pad2 subject_id

/-- One generated observation (one CSV row of the Simulator's output). -/
structure Row where
  id : String
  group : String
  timepoint : String
  items : List ℤ
  dassAnxiety : ℤ
  dassDepression : ℤ
  dassStress : ℤ
deriving DecidableEq

/-- Sum of the item scores selected by a 1-based index list
(`sum([row[q] for q in dass_x])`). -/
def subscaleTotal (idxs : List ℕ) (items : List ℤ) : ℤ :=
  (idxs.map (fun q => items.getD (q - 1) 0)).sum

/-- The stored score of one item: the raw draw, attenuated exactly when the
group is `intervention` and the timepoint is not `baseline`. -/
def storedScore (group time : String) (draw : Fin 4) : ℤ :=
  if group = "intervention" ∧ time ≠ "baseline" then
    apply_treatment_effect draw.val (1/5)
  else
    (draw.val : ℤ)

/-- One row of the generated dataset; `base` is the index of the first of the
21 draws this row consumes from the stream `d`. -/
def makeRow (d : ℕ → Fin 4) (group : String) (subject_id : ℕ)
    (time : String) (base : ℕ) : Row :=
  let items : List ℤ :=
    (List.range 21).map (fun i => storedScore group time (d (base + i)))
  { id := full_id group subject_id
    group := group
    timepoint := time
    items := items
    dassAnxiety := subscaleTotal dass_anxiety items
    dassDepression := subscaleTotal dass_depression items
    dassStress := subscaleTotal dass_stress items }

/-- The generated dataset: rows in group → subject → timepoint order, each row
consuming 21 consecutive draws from the stream `d` (so draw
`((gi*20 + si)*5 + ti)*21 + i` is item `i` of subject `si` of group `gi` at
timepoint `ti`, the source's iteration order). -/
def simulateData (d : ℕ → Fin 4) : List Row :=
  (List.range 2).flatMap (fun gi =>
    (List.range n_per_group).flatMap (fun si =>
      (List.range 5).map (fun ti =>
        makeRow d (groups.getD gi "") (si + 1) (timepoints.getD ti "")
          (((gi * n_per_group + si) * 5 + ti) * 21))))

/-- A concrete all-zeros draw stream, used to instantiate theorems. -/
def d0 : ℕ → Fin 4 := fun _ => ⟨0, by omega⟩

/-- A second concrete draw stream agreeing with `d0` on the 4200 consumed
draws and differing beyond them. -/
def d1 : ℕ → Fin 4 := fun i => if i < 4200 then ⟨0, by omega⟩ else ⟨1, by omega⟩

/-- The generated row of intervention subject 1 at `3_months` under the
all-zeros stream (row index 1, so its draws start at index 21). -/
def rowI3m : Row := makeRow d0 "intervention" 1 "3_months" 21

/-- The generated row of intervention subject 1 at `baseline` under the
all-zeros stream (row index 0). -/
def rowIbase : Row := makeRow d0 "intervention" 1 "baseline" 0

/-- The (id, timepoint) pairs of the generated rows, in generation order; they
do not depend on the draw stream. -/
def expectedPairs : List (String × String) :=
  (List.range 2).flatMap (fun gi =>
    (List.range n_per_group).flatMap (fun si =>
      (List.range 5).map (fun ti =>
        (full_id (groups.getD gi "") (si + 1), timepoints.getD ti ""))))

/-! ## Aggregator (simulation_checking.py)

The Aggregator reads the CSV back; a read row carries the two key columns and
the three subscale totals (the only columns the script uses). Values are
modelled as exact rationals. -/

/-- One row of the loaded CSV, restricted to the columns the Aggregator uses. -/
structure CsvRow where
  group : String
  timepoint : String
  anxiety : ℚ
  depression : ℚ
  stress : ℚ

/-- The columns the Aggregator accesses (`groupby(['group','timepoint'])` and
the three subscale selections). -/
def requiredColumns : List String :=
  ["group", "timepoint", "DASS_Anxiety", "DASS_Depression", "DASS_Stress"]

/-- Arithmetic mean of one subscale over the rows of one (group, timepoint)
cell (the `.mean()` of the groupby). -/
def groupMean (rows : List CsvRow) (g t : String) (f : CsvRow → ℚ) : ℚ :=
  let xs := (rows.filter (fun r => r.group == g && r.timepoint == t)).map f
  xs.sum / (xs.length : ℚ)

/-- Pandas `.round(2)`: scale by 100, round half to even, scale back. -/
def round2 (q : ℚ) : ℚ := (roundHalfEven (q * 100) : ℚ) / 100

/-- One cell of the `summary` table: the three subscale means of a
(group, timepoint) cell, already rounded to 2 decimals — the source applies
`.round(2)` when `summary` is built. -/
def summaryCell (rows : List CsvRow) (g t : String) : ℚ × ℚ × ℚ :=
  (round2 (groupMean rows g t CsvRow.anxiety),
   round2 (groupMean rows g t CsvRow.depression),
   round2 (groupMean rows g t CsvRow.stress))

/-- The distinct (group, timepoint) keys of the groupby. -/
def groupbyKeys (rows : List CsvRow) : List (String × String) :=
  (rows.map (fun r => (r.group, r.timepoint))).dedup

/-- The `summary` table: one entry per observed (group, timepoint) key. -/
def summary (rows : List CsvRow) : List ((String × String) × (ℚ × ℚ × ℚ)) :=
  (groupbyKeys rows).map (fun k => (k, summaryCell rows k.1 k.2))

/-- The distinct timepoints observed (the index of the unstacked table). -/
def timeKeys (rows : List CsvRow) : List String :=
  (rows.map (fun r => r.timepoint)).dedup

/-- Componentwise subtraction of two subscale triples. -/
def sub3 (a b : ℚ × ℚ × ℚ) : ℚ × ℚ × ℚ :=
  (a.1 - b.1, a.2.1 - b.2.1, a.2.2 - b.2.2)

/-- Componentwise `.round(2)` of a subscale triple (the final
`change.round(2)`). -/
def round3 (a : ℚ × ℚ × ℚ) : ℚ × ℚ × ℚ :=
  (round2 a.1, round2 a.2.1, round2 a.2.2)

/-- One row of the printed `change` table: the intervention cell of the
(already rounded) summary minus the control cell, rounded again for display.
`none` models a NaN cell (a group observed somewhere but absent at `t`). -/
def changeRow (rows : List CsvRow) (t : String) : Option (ℚ × ℚ × ℚ) := do
  let i ← (summary rows).lookup ("intervention", t)
  let c ← (summary rows).lookup ("control", t)
  pure (round3 (sub3 i c))

/-- The `change` table printed by the script: one entry per observed
timepoint. -/
def change (rows : List CsvRow) : List (String × Option (ℚ × ℚ × ℚ)) :=
  (timeKeys rows).map (fun t => (t, changeRow rows t))

/-- Modelled from the spec: the claim's reading of the difference step — the
difference of the exact (unrounded) group means, with rounding to 2 decimals
applied only afterwards, for display. -/
def changeRowSpec (rows : List CsvRow) (t : String) : ℚ × ℚ × ℚ :=
  (round2 (groupMean rows "intervention" t CsvRow.anxiety -
           groupMean rows "control" t CsvRow.anxiety),
   round2 (groupMean rows "intervention" t CsvRow.depression -
           groupMean rows "control" t CsvRow.depression),
   round2 (groupMean rows "intervention" t CsvRow.stress -
           groupMean rows "control" t CsvRow.stress))

/-- The Aggregator's input: `none` models an absent file; otherwise the header
(column names) and the parsed rows. -/
structure InputFile where
  columns : List String
  rows : List CsvRow

/-- The ways the Aggregator run can fail: `read_csv` on an absent path, a
missing column at the groupby/selection, or a missing group label at
`diff[(subscale, group)]`. -/
inductive AggError where
  | fileNotFound
  | missingColumn
  | keyError (g : String)

/-- The whole Aggregator run. `read_csv` fails on an absent file; the
groupby/column selection fails when a required column is missing; building
`change` looks up `diff[(subscale, 'intervention')]` then
`diff[(subscale, 'control')]`, each a KeyError when that group label occurs in
no row (so the unstacked table has no such column). Otherwise the run
succeeds with the `change` table. -/
def aggregate (file : Option InputFile) :
    Except AggError (List (String × Option (ℚ × ℚ × ℚ))) :=
  match file with
  | none => Except.error AggError.fileNotFound
  | some f =>
    if requiredColumns.all (fun c => f.columns.contains c) then
      if f.rows.any (fun r => r.group == "intervention") then
        if f.rows.any (fun r => r.group == "control") then
          Except.ok (change f.rows)
        else Except.error (AggError.keyError "control")
      else Except.error (AggError.keyError "intervention")
    else Except.error AggError.missingColumn

/-! ## Concrete instances used by counterexamples and witnesses -/

/-- A small dataset: three intervention and three control subjects at one
timepoint, anxiety totals 1,2,2 (mean 5/3) versus 0,0,1 (mean 1/3). -/
def rows6 : List CsvRow :=
  [⟨"intervention", "baseline", 1, 0, 0⟩,
   ⟨"intervention", "baseline", 2, 0, 0⟩,
   ⟨"intervention", "baseline", 2, 0, 0⟩,
   ⟨"control", "baseline", 0, 0, 0⟩,
   ⟨"control", "baseline", 0, 0, 0⟩,
   ⟨"control", "baseline", 1, 0, 0⟩]

/-- An input file with every required column present whose rows contain no
intervention-group observation. -/
def file1 : InputFile :=
  { columns := requiredColumns
    rows := [⟨"control", "baseline", 1, 1, 1⟩] }

end Dass21

namespace Dass21

/-! ## Basic sanity examples (structure of the generated data) -/

theorem roundHalfEven_eq_of (q : ℚ) (n : ℤ) (hl : (n : ℚ) ≤ q)
    (hu : q < (n : ℚ) + 1) :
    roundHalfEven q =
      if q - n < 1/2 then n
      else if 1/2 < q - n then n + 1
      else if n % 2 = 0 then n else n + 1 := by
  have hf : Int.floor q = n := by
    rw [Int.floor_eq_iff]
    exact ⟨hl, hu⟩
  rw [roundHalfEven, hf]

theorem roundHalfEven_lt (q : ℚ) (n : ℤ) (hl : (n : ℚ) ≤ q)
    (hu : q < (n : ℚ) + 1/2) : roundHalfEven q = n := by
  rw [roundHalfEven_eq_of q n hl (by linarith)]
  have h : q - (n : ℚ) < 1/2 := by linarith
  rw [if_pos h]

theorem roundHalfEven_gt (q : ℚ) (n : ℤ) (hl : (n : ℚ) + 1/2 < q)
    (hu : q < (n : ℚ) + 1) : roundHalfEven q = n + 1 := by
  rw [roundHalfEven_eq_of q n (by linarith) hu]
  have h1 : ¬ (q - (n : ℚ) < 1/2) := by
    push_neg
    linarith
  have h2 : (1 : ℚ)/2 < q - n := by linarith
  rw [if_neg h1, if_pos h2]

theorem roundHalfAway_eval (q : ℚ) (n : ℤ) (h0 : 0 ≤ q)
    (hl : (n : ℚ) ≤ q + 1/2) (hu : q + 1/2 < (n : ℚ) + 1) :
    roundHalfAway q = n := by
  rw [roundHalfAway, if_pos h0, Int.floor_eq_iff]
  exact ⟨hl, hu⟩

/-- Closed form of the attenuation on the four possible draws with the fixed
effect size 0.2: the draws 0, 1, 2 are fixed and 3 is sent to 2. -/
theorem apply_treatment_effect_eval (n : ℕ) (h : n ≤ 3) :
    apply_treatment_effect n (1/5) = min (n : ℤ) 2 := by
  interval_cases n
  · rw [apply_treatment_effect,
      show (((0 : ℕ) : ℚ) * (1 - 1/5)) = 0 by norm_num,
      roundHalfEven_lt 0 0 (by norm_num) (by norm_num)]
    norm_num
  · rw [apply_treatment_effect,
      show (((1 : ℕ) : ℚ) * (1 - 1/5)) = 4/5 by norm_num,
      roundHalfEven_gt (4/5) 0 (by norm_num) (by norm_num)]
    norm_num
  · rw [apply_treatment_effect,
      show (((2 : ℕ) : ℚ) * (1 - 1/5)) = 8/5 by norm_num,
      roundHalfEven_gt (8/5) 1 (by norm_num) (by norm_num)]
    norm_num
  · rw [apply_treatment_effect,
      show (((3 : ℕ) : ℚ) * (1 - 1/5)) = 12/5 by norm_num,
      roundHalfEven_lt (12/5) 2 (by norm_num) (by norm_num)]
    norm_num

theorem storedScore_bounds (g t : String) (v : Fin 4) :
    0 ≤ storedScore g t v ∧ storedScore g t v ≤ 3 := by
  rw [storedScore]
  split
  · rw [apply_treatment_effect_eval v.val (by omega)]
    omega
  · omega

theorem items_getD (f : ℕ → ℤ) (i : ℕ) (h : i < 21) :
    ((List.range 21).map f).getD i 0 = f i := by
  rw [List.getD_eq_getElem?_getD, List.getElem?_map, List.getElem?_range h]
  rfl

theorem getD_bound (b : ℤ) (items : List ℤ) (hb : 0 ≤ b)
    (h : ∀ x ∈ items, 0 ≤ x ∧ x ≤ b) (q : ℕ) :
    0 ≤ items.getD q 0 ∧ items.getD q 0 ≤ b := by
  by_cases hq : q < items.length
  · rw [List.getD_eq_getElem items 0 hq]
    exact h _ (items.getElem_mem hq)
  · rw [List.getD_eq_default]
    · omega
    · omega

theorem subscaleTotal_bounds (b : ℤ) (idxs : List ℕ) (items : List ℤ)
    (hb : 0 ≤ b) (h : ∀ x ∈ items, 0 ≤ x ∧ x ≤ b) :
    0 ≤ subscaleTotal idxs items ∧
      subscaleTotal idxs items ≤ b * idxs.length := by
  induction idxs with
  | nil => simp [subscaleTotal]
  | cons q rest ih =>
    have hq := getD_bound b items hb h (q - 1)
    have : subscaleTotal (q :: rest) items =
        items.getD (q - 1) 0 + subscaleTotal rest items := by
      simp [subscaleTotal]
    rw [this]
    have hlen : ((q :: rest).length : ℤ) = (rest.length : ℤ) + 1 := by
      simp
    constructor
    · omega
    · have h2 := ih.2
      have : b * ((q :: rest).length : ℤ) = b * rest.length + b := by
        rw [List.length_cons]
        push_cast
        ring
      omega

theorem mem_simulateData {d : ℕ → Fin 4} {r : Row} :
    r ∈ simulateData d ↔
      ∃ gi < 2, ∃ si < n_per_group, ∃ ti < 5,
        r = makeRow d (groups.getD gi "") (si + 1) (timepoints.getD ti "")
              (((gi * n_per_group + si) * 5 + ti) * 21) := by
  simp only [simulateData, List.mem_flatMap, List.mem_map, List.mem_range]
  constructor
  · rintro ⟨gi, hgi, si, hsi, ti, hti, rfl⟩
    exact ⟨gi, hgi, si, hsi, ti, hti, rfl⟩
  · rintro ⟨gi, hgi, si, hsi, ti, hti, rfl⟩
    exact ⟨gi, hgi, si, hsi, ti, hti, rfl⟩

theorem makeRow_items (d : ℕ → Fin 4) (g : String) (s : ℕ) (t : String)
    (b : ℕ) : (makeRow d g s t b).items =
      (List.range 21).map (fun i => storedScore g t (d (b + i))) := rfl

theorem makeRow_group (d : ℕ → Fin 4) (g : String) (s : ℕ) (t : String)
    (b : ℕ) : (makeRow d g s t b).group = g := rfl

theorem makeRow_timepoint (d : ℕ → Fin 4) (g : String) (s : ℕ) (t : String)
    (b : ℕ) : (makeRow d g s t b).timepoint = t := rfl

theorem makeRow_totals (d : ℕ → Fin 4) (g : String) (s : ℕ) (t : String)
    (b : ℕ) :
    (makeRow d g s t b).dassAnxiety =
        subscaleTotal dass_anxiety (makeRow d g s t b).items ∧
      (makeRow d g s t b).dassDepression =
        subscaleTotal dass_depression (makeRow d g s t b).items ∧
      (makeRow d g s t b).dassStress =
        subscaleTotal dass_stress (makeRow d g s t b).items :=
  ⟨rfl, rfl, rfl⟩

theorem makeRow_items_bounds (d : ℕ → Fin 4) (g : String) (s : ℕ) (t : String)
    (b : ℕ) : ∀ x ∈ (makeRow d g s t b).items, 0 ≤ x ∧ x ≤ 3 := by
  intro x hx
  rw [makeRow_items] at hx
  obtain ⟨i, _, rfl⟩ := List.mem_map.mp hx
  exact storedScore_bounds g t _

/-! ## Claim theorems -/

/-- C2: in every generated row, each stored item score is the fresh draw
attenuated by `apply_treatment_effect` with effect size 0.2 exactly when the
row's group is `intervention` and its timepoint is not `baseline`, and the
unmodified raw draw otherwise. -/
theorem stored_item_rule (d : ℕ → Fin 4) (r : Row) (hr : r ∈ simulateData d) :
    ∃ base : ℕ, ∀ i, i < 21 →
      r.items.getD i 0 =
        if r.group = "intervention" ∧ r.timepoint ≠ "baseline" then
          apply_treatment_effect (d (base + i)).val (1/5)
        else ((d (base + i)).val : ℤ) := by
  obtain ⟨gi, hgi, si, hsi, ti, hti, rfl⟩ := mem_simulateData.mp hr
  refine ⟨((gi * n_per_group + si) * 5 + ti) * 21, fun i hi => ?_⟩
  rw [makeRow_items, items_getD _ i hi, makeRow_group, makeRow_timepoint]
  rfl

/-- C2 witness: instantiated at the all-zeros stream and the intervention
row at `3_months`. -/
theorem stored_item_rule_witness :
    ∃ base : ℕ, ∀ i, i < 21 →
      rowI3m.items.getD i 0 =
        if rowI3m.group = "intervention" ∧ rowI3m.timepoint ≠ "baseline" then
          apply_treatment_effect (d0 (base + i)).val (1/5)
        else ((d0 (base + i)).val : ℤ) :=
  stored_item_rule d0 rowI3m
    (mem_simulateData.mpr ⟨0, by decide, 0, by decide, 1, by decide, rfl⟩)

/-- C3: in every generated row, each of the three subscale totals is the sum
of the item scores selected by its fixed 7-item index set, and lies in
[0, 21]. -/
theorem subscale_totals_valid (d : ℕ → Fin 4) (r : Row)
    (hr : r ∈ simulateData d) :
    r.dassAnxiety = subscaleTotal dass_anxiety r.items ∧
    r.dassDepression = subscaleTotal dass_depression r.items ∧
    r.dassStress = subscaleTotal dass_stress r.items ∧
    0 ≤ r.dassAnxiety ∧ r.dassAnxiety ≤ 21 ∧
    0 ≤ r.dassDepression ∧ r.dassDepression ≤ 21 ∧
    0 ≤ r.dassStress ∧ r.dassStress ≤ 21 := by
  obtain ⟨gi, hgi, si, hsi, ti, hti, rfl⟩ := mem_simulateData.mp hr
  have hb := makeRow_items_bounds d (groups.getD gi "") (si + 1)
    (timepoints.getD ti "") (((gi * n_per_group + si) * 5 + ti) * 21)
  obtain ⟨ha, hd, hs⟩ := makeRow_totals d (groups.getD gi "") (si + 1)
    (timepoints.getD ti "") (((gi * n_per_group + si) * 5 + ti) * 21)
  have bA := subscaleTotal_bounds 3 dass_anxiety _ (by omega) hb
  have bD := subscaleTotal_bounds 3 dass_depression _ (by omega) hb
  have bS := subscaleTotal_bounds 3 dass_stress _ (by omega) hb
  have lA : (dass_anxiety.length : ℤ) = 7 := by rfl
  have lD : (dass_depression.length : ℤ) = 7 := by rfl
  have lS : (dass_stress.length : ℤ) = 7 := by rfl
  rw [lA] at bA
  rw [lD] at bD
  rw [lS] at bS
  rw [ha, hd, hs]
  refine ⟨rfl, rfl, rfl, ?_, ?_, ?_, ?_, ?_, ?_⟩ <;> omega

/-- C3 witness: instantiated at the all-zeros stream and the intervention
baseline row. -/
theorem subscale_totals_valid_witness :
    rowIbase.dassAnxiety = subscaleTotal dass_anxiety rowIbase.items ∧
    rowIbase.dassDepression = subscaleTotal dass_depression rowIbase.items ∧
    rowIbase.dassStress = subscaleTotal dass_stress rowIbase.items ∧
    0 ≤ rowIbase.dassAnxiety ∧ rowIbase.dassAnxiety ≤ 21 ∧
    0 ≤ rowIbase.dassDepression ∧ rowIbase.dassDepression ≤ 21 ∧
    0 ≤ rowIbase.dassStress ∧ rowIbase.dassStress ≤ 21 :=
  subscale_totals_valid d0 rowIbase
    (mem_simulateData.mpr ⟨0, by decide, 0, by decide, 0, by decide, rfl⟩)

/-- C5: every generated row stores exactly 21 item scores, each an integer in
[0, 3]. -/
theorem raw_item_range (d : ℕ → Fin 4) (r : Row) (hr : r ∈ simulateData d) :
    r.items.length = 21 ∧ ∀ x ∈ r.items, 0 ≤ x ∧ x ≤ 3 := by
  obtain ⟨gi, hgi, si, hsi, ti, hti, rfl⟩ := mem_simulateData.mp hr
  constructor
  · rw [makeRow_items]
    simp
  · exact makeRow_items_bounds d _ _ _ _

/-- C5 witness: instantiated at the all-zeros stream and the intervention
row at `3_months`. -/
theorem raw_item_range_witness :
    rowI3m.items.length = 21 ∧ ∀ x ∈ rowI3m.items, 0 ≤ x ∧ x ≤ 3 :=
  raw_item_range d0 rowI3m
    (mem_simulateData.mpr ⟨0, by decide, 0, by decide, 1, by decide, rfl⟩)

/-- C9: the attenuation with effect size 0.2 fixes the draws 0, 1, 2 and
sends 3 to 2, so it never exceeds the raw draw; hence every item score of an
intervention row at a non-baseline timepoint is at most 2 and every subscale
total of such a row is at most 14. -/
theorem intervention_post_baseline_bounds (d : ℕ → Fin 4) (r : Row)
    (hr : r ∈ simulateData d) (hg : r.group = "intervention")
    (ht : r.timepoint ≠ "baseline") :
    (∀ x ∈ r.items, x ≤ 2) ∧
    r.dassAnxiety ≤ 14 ∧ r.dassDepression ≤ 14 ∧ r.dassStress ≤ 14 ∧
    (∀ n : ℕ, n ≤ 2 → apply_treatment_effect n (1/5) = (n : ℤ)) ∧
    apply_treatment_effect 3 (1/5) = 2 ∧
    (∀ v : Fin 4, apply_treatment_effect v.val (1/5) ≤ (v.val : ℤ)) := by
  obtain ⟨gi, hgi, si, hsi, ti, hti, rfl⟩ := mem_simulateData.mp hr
  rw [makeRow_group] at hg
  rw [makeRow_timepoint] at ht
  have hle2 : ∀ x ∈ (makeRow d (groups.getD gi "") (si + 1)
      (timepoints.getD ti "") (((gi * n_per_group + si) * 5 + ti) * 21)).items,
      x ≤ 2 := by
    intro x hx
    rw [makeRow_items] at hx
    obtain ⟨i, _, rfl⟩ := List.mem_map.mp hx
    rw [storedScore, if_pos ⟨hg, ht⟩,
      apply_treatment_effect_eval _ (by omega)]
    omega
  have hb : ∀ x ∈ (makeRow d (groups.getD gi "") (si + 1)
      (timepoints.getD ti "") (((gi * n_per_group + si) * 5 + ti) * 21)).items,
      0 ≤ x ∧ x ≤ 2 := by
    intro x hx
    exact ⟨(makeRow_items_bounds d _ _ _ _ x hx).1, hle2 x hx⟩
  obtain ⟨ha, hd, hs⟩ := makeRow_totals d (groups.getD gi "") (si + 1)
    (timepoints.getD ti "") (((gi * n_per_group + si) * 5 + ti) * 21)
  have bA := subscaleTotal_bounds 2 dass_anxiety _ (by omega) hb
  have bD := subscaleTotal_bounds 2 dass_depression _ (by omega) hb
  have bS := subscaleTotal_bounds 2 dass_stress _ (by omega) hb
  have lA : (dass_anxiety.length : ℤ) = 7 := by rfl
  have lD : (dass_depression.length : ℤ) = 7 := by rfl
  have lS : (dass_stress.length : ℤ) = 7 := by rfl
  rw [lA] at bA
  rw [lD] at bD
  rw [lS] at bS
  rw [ha, hd, hs]
  refine ⟨hle2, by omega, by omega, by omega, ?_, ?_, ?_⟩
  · intro n hn
    rw [apply_treatment_effect_eval n (by omega)]
    omega
  · rw [apply_treatment_effect_eval 3 (by omega)]
    decide
  · intro v
    rw [apply_treatment_effect_eval v.val (by omega)]
    omega

/-- C9 witness: instantiated at the all-zeros stream and the intervention
row at `3_months`. -/
theorem intervention_post_baseline_bounds_witness :
    (∀ x ∈ rowI3m.items, x ≤ 2) ∧
    rowI3m.dassAnxiety ≤ 14 ∧ rowI3m.dassDepression ≤ 14 ∧
    rowI3m.dassStress ≤ 14 ∧
    (∀ n : ℕ, n ≤ 2 → apply_treatment_effect n (1/5) = (n : ℤ)) ∧
    apply_treatment_effect 3 (1/5) = 2 ∧
    (∀ v : Fin 4, apply_treatment_effect v.val (1/5) ≤ (v.val : ℤ)) :=
  intervention_post_baseline_bounds d0 rowI3m
    (mem_simulateData.mpr ⟨0, by decide, 0, by decide, 1, by decide, rfl⟩)
    rfl (by decide)

end Dass21

namespace Dass21

/-- C6: the three 7-item index sets are pairwise disjoint, each has exactly 7
elements, and together they cover exactly the indices 1..21. -/
theorem subscale_sets_partition :
    dass_anxiety.toFinset.card = 7 ∧
    dass_depression.toFinset.card = 7 ∧
    dass_stress.toFinset.card = 7 ∧
    dass_anxiety.toFinset ∩ dass_depression.toFinset = ∅ ∧
    dass_anxiety.toFinset ∩ dass_stress.toFinset = ∅ ∧
    dass_depression.toFinset ∩ dass_stress.toFinset = ∅ ∧
    dass_anxiety.toFinset ∪ dass_depression.toFinset ∪ dass_stress.toFinset =
      Finset.Icc 1 21 := by
  decide

/-- C10: on the four possible draws with effect size 0.2, the scaled value is
never a half-integer, so round-half-to-even and round-half-away-from-zero
agree there, the rounded value already lies in [0, 2], and the clamp in
`apply_treatment_effect` is inactive. -/
theorem attenuation_rounding_refinement (n : ℕ) (h : n ≤ 3) :
    (n : ℚ) * (1 - 1/5) - (Int.floor ((n : ℚ) * (1 - 1/5)) : ℚ) ≠ 1/2 ∧
    roundHalfEven ((n : ℚ) * (1 - 1/5)) = roundHalfAway ((n : ℚ) * (1 - 1/5)) ∧
    0 ≤ roundHalfEven ((n : ℚ) * (1 - 1/5)) ∧
    roundHalfEven ((n : ℚ) * (1 - 1/5)) ≤ 2 ∧
    apply_treatment_effect n (1/5) = roundHalfEven ((n : ℚ) * (1 - 1/5)) := by
  interval_cases n
  · rw [show ((0 : ℕ) : ℚ) * (1 - 1/5) = 0 by norm_num]
    have hf : Int.floor (0 : ℚ) = 0 := by norm_num
    have he : roundHalfEven (0 : ℚ) = 0 :=
      roundHalfEven_lt 0 0 (by norm_num) (by norm_num)
    have ha : roundHalfAway (0 : ℚ) = 0 :=
      roundHalfAway_eval 0 0 (by norm_num) (by norm_num) (by norm_num)
    have hate : apply_treatment_effect 0 (1/5) = 0 := by
      rw [apply_treatment_effect_eval 0 (by omega)]
      decide
    rw [hf, he, ha, hate]
    norm_num
  · rw [show ((1 : ℕ) : ℚ) * (1 - 1/5) = 4/5 by push_cast; norm_num]
    have hf : Int.floor ((4 : ℚ)/5) = 0 := by
      rw [Int.floor_eq_iff]
      constructor <;> norm_num
    have he : roundHalfEven ((4 : ℚ)/5) = 1 := by
      have h1 := roundHalfEven_gt (4/5) 0 (by norm_num) (by norm_num)
      rw [h1]
      norm_num
    have ha : roundHalfAway ((4 : ℚ)/5) = 1 :=
      roundHalfAway_eval (4/5) 1 (by norm_num) (by norm_num) (by norm_num)
    have hate : apply_treatment_effect 1 (1/5) = 1 := by
      rw [apply_treatment_effect_eval 1 (by omega)]
      decide
    rw [hf, he, ha, hate]
    norm_num
  · rw [show ((2 : ℕ) : ℚ) * (1 - 1/5) = 8/5 by push_cast; norm_num]
    have hf : Int.floor ((8 : ℚ)/5) = 1 := by
      rw [Int.floor_eq_iff]
      constructor <;> norm_num
    have he : roundHalfEven ((8 : ℚ)/5) = 2 := by
      have h1 := roundHalfEven_gt (8/5) 1 (by norm_num) (by norm_num)
      rw [h1]
      norm_num
    have ha : roundHalfAway ((8 : ℚ)/5) = 2 :=
      roundHalfAway_eval (8/5) 2 (by norm_num) (by norm_num) (by norm_num)
    have hate : apply_treatment_effect 2 (1/5) = 2 := by
      rw [apply_treatment_effect_eval 2 (by omega)]
      decide
    rw [hf, he, ha, hate]
    norm_num
  · rw [show ((3 : ℕ) : ℚ) * (1 - 1/5) = 12/5 by push_cast; norm_num]
    have hf : Int.floor ((12 : ℚ)/5) = 2 := by
      rw [Int.floor_eq_iff]
      constructor <;> norm_num
    have he : roundHalfEven ((12 : ℚ)/5) = 2 :=
      roundHalfEven_lt (12/5) 2 (by norm_num) (by norm_num)
    have ha : roundHalfAway ((12 : ℚ)/5) = 2 :=
      roundHalfAway_eval (12/5) 2 (by norm_num) (by norm_num) (by norm_num)
    have hate : apply_treatment_effect 3 (1/5) = 2 := by
      rw [apply_treatment_effect_eval 3 (by omega)]
      decide
    rw [hf, he, ha, hate]
    norm_num

/-- C10 witness: instantiated at the draw 3, the only draw the attenuation
moves. -/
theorem attenuation_rounding_refinement_witness :
    ((3 : ℕ) : ℚ) * (1 - 1/5) -
        (Int.floor (((3 : ℕ) : ℚ) * (1 - 1/5)) : ℚ) ≠ 1/2 ∧
    roundHalfEven (((3 : ℕ) : ℚ) * (1 - 1/5)) =
      roundHalfAway (((3 : ℕ) : ℚ) * (1 - 1/5)) ∧
    0 ≤ roundHalfEven (((3 : ℕ) : ℚ) * (1 - 1/5)) ∧
    roundHalfEven (((3 : ℕ) : ℚ) * (1 - 1/5)) ≤ 2 ∧
    apply_treatment_effect 3 (1/5) =
      roundHalfEven (((3 : ℕ) : ℚ) * (1 - 1/5)) :=
  attenuation_rounding_refinement 3 (by omega)

end Dass21

namespace Dass21

theorem flatMap_congr {α β : Type} (l : List α) (f g : α → List β)
    (h : ∀ x ∈ l, f x = g x) : l.flatMap f = l.flatMap g := by
  induction l with
  | nil => rfl
  | cons a as ih =>
    rw [List.flatMap_cons, List.flatMap_cons, h a (List.mem_cons_self a as),
      ih (fun x hx => h x (List.mem_cons_of_mem a hx))]

theorem makeRow_congr (e1 e2 : ℕ → Fin 4) (g : String) (s : ℕ) (t : String)
    (b : ℕ) (h : ∀ j, j < 21 → e1 (b + j) = e2 (b + j)) :
    makeRow e1 g s t b = makeRow e2 g s t b := by
  have hi : (List.range 21).map (fun i => storedScore g t (e1 (b + i))) =
      (List.range 21).map (fun i => storedScore g t (e2 (b + i))) :=
    List.map_congr_left (fun i hi => by rw [h i (List.mem_range.mp hi)])
  simp only [makeRow]
  rw [hi]

/-- C7: the generated dataset is a function of the first 4200 draws of the
stream alone (one draw per item, in the iteration order
group → subject → timepoint → item): two streams agreeing on those draws
generate identical datasets. -/
theorem simulateData_det (e1 e2 : ℕ → Fin 4)
    (h : ∀ i, i < 4200 → e1 i = e2 i) : simulateData e1 = simulateData e2 := by
  rw [simulateData, simulateData]
  apply flatMap_congr
  intro gi hgi
  apply flatMap_congr
  intro si hsi
  apply List.map_congr_left
  intro ti hti
  have hgi2 := List.mem_range.mp hgi
  have hsi2 := List.mem_range.mp hsi
  have hti2 := List.mem_range.mp hti
  have hn : n_per_group = 20 := rfl
  rw [hn] at hsi2 ⊢
  apply makeRow_congr
  intro j hj
  apply h
  omega

/-- C7 witness: the all-zeros stream and a stream differing only from draw
4200 on generate identical datasets. -/
theorem simulateData_det_witness : simulateData d0 = simulateData d1 :=
  simulateData_det d0 d1 (fun i hi => by simp [d0, d1, hi])

theorem map_pairs (d : ℕ → Fin 4) :
    (simulateData d).map (fun r => (r.id, r.timepoint)) = expectedPairs := by
  rfl

set_option maxRecDepth 40000 in
theorem expectedPairs_nodup : expectedPairs.Nodup := by decide

theorem mem_expectedPairs (gi si ti : ℕ) (hgi : gi < 2) (hsi : 1 ≤ si)
    (hsi2 : si ≤ n_per_group) (hti : ti < 5) :
    (full_id (groups.getD gi "") si, timepoints.getD ti "") ∈ expectedPairs := by
  have hn : n_per_group = 20 := rfl
  rw [hn] at hsi2
  rw [expectedPairs, List.mem_flatMap]
  refine ⟨gi, List.mem_range.mpr hgi, ?_⟩
  rw [List.mem_flatMap]
  refine ⟨si - 1, List.mem_range.mpr (by rw [hn]; omega), ?_⟩
  rw [List.mem_map]
  refine ⟨ti, List.mem_range.mpr hti, ?_⟩
  rw [Nat.sub_add_cancel hsi]

/-- C4: every run yields exactly 200 rows, the (id, timepoint) pairs of the
rows are pairwise distinct, and every (subject id, timepoint) combination of
the 2×20 subjects and 5 timepoints occurs among them. -/
theorem panel_complete (d : ℕ → Fin 4) :
    (simulateData d).length = 200 ∧
    ((simulateData d).map (fun r => (r.id, r.timepoint))).Nodup ∧
    ∀ gi si ti : ℕ, gi < 2 → 1 ≤ si → si ≤ n_per_group → ti < 5 →
      (full_id (groups.getD gi "") si, timepoints.getD ti "") ∈
        (simulateData d).map (fun r => (r.id, r.timepoint)) := by
  refine ⟨rfl, ?_, ?_⟩
  · rw [map_pairs]
    exact expectedPairs_nodup
  · intro gi si ti h1 h2 h3 h4
    rw [map_pairs]
    exact mem_expectedPairs gi si ti h1 h2 h3 h4

/-- C4 witness: instantiated at the all-zeros stream; subject 1 of the first
group at the first timepoint occurs among the (id, timepoint) pairs. -/
theorem panel_complete_witness :
    (simulateData d0).length = 200 ∧
    ((simulateData d0).map (fun r => (r.id, r.timepoint))).Nodup ∧
    (full_id (groups.getD 0 "") 1, timepoints.getD 0 "") ∈
      (simulateData d0).map (fun r => (r.id, r.timepoint)) :=
  ⟨(panel_complete d0).1, (panel_complete d0).2.1,
    (panel_complete d0).2.2 0 1 0 (by decide) (by decide) (by decide)
      (by decide)⟩

end Dass21

namespace Dass21

theorem lookup_map_key {α β : Type} [BEq α] [LawfulBEq α]
    (keys : List α) (f : α → β) (k : α) (hk : k ∈ keys) :
    (keys.map (fun x => (x, f x))).lookup k = some (f k) := by
  induction keys with
  | nil => cases hk
  | cons a as ih =>
    rw [List.map_cons]
    by_cases h : k = a
    · subst h
      simp [List.lookup]
    · rcases List.mem_cons.mp hk with h1 | h1
      · exact absurd h1 h
      · have hba : (k == a) = false := beq_eq_false_iff_ne.mpr h
        simp [List.lookup, hba, ih h1]

theorem changeRow_eq (rows : List CsvRow) (t : String)
    (hi : ("intervention", t) ∈ groupbyKeys rows)
    (hc : ("control", t) ∈ groupbyKeys rows) :
    changeRow rows t =
      some (round3 (sub3 (summaryCell rows "intervention" t)
        (summaryCell rows "control" t))) := by
  rw [changeRow, summary,
    lookup_map_key (groupbyKeys rows) (fun k => summaryCell rows k.1 k.2)
      ("intervention", t) hi,
    lookup_map_key (groupbyKeys rows) (fun k => summaryCell rows k.1 k.2)
      ("control", t) hc]
  rfl

/-- C1 (amended): when both groups are observed at a timepoint, the reported
difference row at that timepoint is the difference of the ALREADY-ROUNDED
group means (the source rounds `summary` on construction), rounded once more
for display — not the rounded difference of the exact means. -/
theorem change_uses_rounded_means (rows : List CsvRow) (t : String)
    (hi : ∃ r ∈ rows, r.group = "intervention" ∧ r.timepoint = t)
    (hc : ∃ r ∈ rows, r.group = "control" ∧ r.timepoint = t) :
    (change rows).lookup t =
      some (some
        (round2 (round2 (groupMean rows "intervention" t CsvRow.anxiety) -
                 round2 (groupMean rows "control" t CsvRow.anxiety)),
         round2 (round2 (groupMean rows "intervention" t CsvRow.depression) -
                 round2 (groupMean rows "control" t CsvRow.depression)),
         round2 (round2 (groupMean rows "intervention" t CsvRow.stress) -
                 round2 (groupMean rows "control" t CsvRow.stress)))) := by
  obtain ⟨ri, hri, hgi, hti⟩ := hi
  obtain ⟨rc, hrc, hgc, htc⟩ := hc
  have hkeyi : ("intervention", t) ∈ groupbyKeys rows := by
    rw [groupbyKeys, List.mem_dedup]
    exact List.mem_map.mpr ⟨ri, hri, by rw [hgi, hti]⟩
  have hkeyc : ("control", t) ∈ groupbyKeys rows := by
    rw [groupbyKeys, List.mem_dedup]
    exact List.mem_map.mpr ⟨rc, hrc, by rw [hgc, htc]⟩
  have htk : t ∈ timeKeys rows := by
    rw [timeKeys, List.mem_dedup]
    exact List.mem_map.mpr ⟨ri, hri, hti⟩
  rw [change, lookup_map_key (timeKeys rows) (fun s => changeRow rows s) t htk,
    changeRow_eq rows t hkeyi hkeyc]
  rfl

/-- C1 witness for the amended claim: instantiated at the six-row dataset and
timepoint `baseline`. -/
theorem change_uses_rounded_means_witness :
    (change rows6).lookup "baseline" =
      some (some
        (round2 (round2 (groupMean rows6 "intervention" "baseline"
                   CsvRow.anxiety) -
                 round2 (groupMean rows6 "control" "baseline"
                   CsvRow.anxiety)),
         round2 (round2 (groupMean rows6 "intervention" "baseline"
                   CsvRow.depression) -
                 round2 (groupMean rows6 "control" "baseline"
                   CsvRow.depression)),
         round2 (round2 (groupMean rows6 "intervention" "baseline"
                   CsvRow.stress) -
                 round2 (groupMean rows6 "control" "baseline"
                   CsvRow.stress)))) :=
  change_uses_rounded_means rows6 "baseline"
    ⟨⟨"intervention", "baseline", 1, 0, 0⟩, List.mem_cons_self _ _, rfl, rfl⟩
    ⟨⟨"control", "baseline", 0, 0, 0⟩,
      by simp [rows6], rfl, rfl⟩

end Dass21

namespace Dass21

/-- C1 counterexample: on `rows6` at timepoint `baseline` the exact group
means are 5/3 and 1/3, so the claim's reading (round the exact mean
difference for display only) gives 4/3 ≈ 1.33, but the script's printed
difference — computed from the summary means already rounded to 1.67 and
0.33 — is 1.34. -/
theorem change_differs_from_exact_means :
    changeRow rows6 "baseline" = some (134/100, 0, 0) ∧
    changeRowSpec rows6 "baseline" = (133/100, 0, 0) ∧
    changeRow rows6 "baseline" ≠ some (changeRowSpec rows6 "baseline") := by
  have hmi : groupMean rows6 "intervention" "baseline" CsvRow.anxiety = 5/3 := by
    rw [groupMean, show (rows6.filter
      (fun r => r.group == "intervention" && r.timepoint == "baseline")).map
        CsvRow.anxiety = [1, 2, 2] from rfl]
    norm_num
  have hmc : groupMean rows6 "control" "baseline" CsvRow.anxiety = 1/3 := by
    rw [groupMean, show (rows6.filter
      (fun r => r.group == "control" && r.timepoint == "baseline")).map
        CsvRow.anxiety = [0, 0, 1] from rfl]
    norm_num
  have hdi : groupMean rows6 "intervention" "baseline" CsvRow.depression
      = 0 := by
    rw [groupMean, show (rows6.filter
      (fun r => r.group == "intervention" && r.timepoint == "baseline")).map
        CsvRow.depression = [0, 0, 0] from rfl]
    norm_num
  have hdc : groupMean rows6 "control" "baseline" CsvRow.depression = 0 := by
    rw [groupMean, show (rows6.filter
      (fun r => r.group == "control" && r.timepoint == "baseline")).map
        CsvRow.depression = [0, 0, 0] from rfl]
    norm_num
  have hsi : groupMean rows6 "intervention" "baseline" CsvRow.stress = 0 := by
    rw [groupMean, show (rows6.filter
      (fun r => r.group == "intervention" && r.timepoint == "baseline")).map
        CsvRow.stress = [0, 0, 0] from rfl]
    norm_num
  have hsc : groupMean rows6 "control" "baseline" CsvRow.stress = 0 := by
    rw [groupMean, show (rows6.filter
      (fun r => r.group == "control" && r.timepoint == "baseline")).map
        CsvRow.stress = [0, 0, 0] from rfl]
    norm_num
  have r1 : round2 ((5 : ℚ)/3) = 167/100 := by
    rw [round2, show (5 : ℚ)/3 * 100 = 500/3 by norm_num,
      roundHalfEven_gt (500/3) 166 (by norm_num) (by norm_num)]
    norm_num
  have r2 : round2 ((1 : ℚ)/3) = 33/100 := by
    rw [round2, show (1 : ℚ)/3 * 100 = 100/3 by norm_num,
      roundHalfEven_lt (100/3) 33 (by norm_num) (by norm_num)]
    norm_num
  have r0 : round2 (0 : ℚ) = 0 := by
    rw [round2, show (0 : ℚ) * 100 = 0 by norm_num,
      roundHalfEven_lt 0 0 (by norm_num) (by norm_num)]
    norm_num
  have r3 : round2 ((167 : ℚ)/100 - 33/100) = 134/100 := by
    rw [round2, show ((167 : ℚ)/100 - 33/100) * 100 = 134 by norm_num,
      roundHalfEven_lt 134 134 (by norm_num) (by norm_num)]
    norm_num
  have r4 : round2 ((5 : ℚ)/3 - 1/3) = 133/100 := by
    rw [round2, show ((5 : ℚ)/3 - 1/3) * 100 = 400/3 by norm_num,
      roundHalfEven_lt (400/3) 133 (by norm_num) (by norm_num)]
    norm_num
  have r00 : round2 ((0 : ℚ) - 0) = 0 := by
    rw [show ((0 : ℚ) - 0) = 0 by norm_num]
    exact r0
  have hA : changeRow rows6 "baseline" = some (134/100, 0, 0) := by
    rw [show changeRow rows6 "baseline" =
      some (round3 (sub3 (summaryCell rows6 "intervention" "baseline")
        (summaryCell rows6 "control" "baseline"))) from rfl,
      summaryCell, summaryCell, hmi, hmc, hdi, hdc, hsi, hsc,
      sub3, round3]
    simp only
    rw [r1, r2, r0, r3, r00]
  have hB : changeRowSpec rows6 "baseline" = (133/100, 0, 0) := by
    rw [changeRowSpec, hmi, hmc, hdi, hdc, hsi, hsc, r4, r00]
  refine ⟨hA, hB, ?_⟩
  rw [hA, hB]
  simp only [ne_eq, Option.some.injEq, Prod.mk.injEq]
  norm_num

end Dass21

namespace Dass21

theorem except_error_iff {ε α : Type} (x : Except ε α) :
    (∃ e, x = Except.error e) ↔ ¬ ∃ v, x = Except.ok v := by
  cases x <;> simp

theorem aggregate_some_ok (f : InputFile) :
    (∃ v, aggregate (some f) = Except.ok v) ↔
      (requiredColumns.all (fun c => f.columns.contains c) = true ∧
       f.rows.any (fun r => r.group == "intervention") = true ∧
       f.rows.any (fun r => r.group == "control") = true) := by
  rw [aggregate]
  split_ifs with h1 h2 h3 <;> simp_all

/-- C8 counterexample: `file1` is present and has every required column, yet
the Aggregator fails (the lookup of the `intervention` column of the
unstacked summary raises a KeyError because no row has that group), so
"fails iff the file is absent or a required column is missing" is false. -/
theorem aggregate_fails_beyond_claimed_cases :
    ¬ (((∃ e, aggregate (some file1) = Except.error e)) ↔
        (some file1 = (none : Option InputFile) ∨
         ∃ c ∈ requiredColumns, file1.columns.contains c = false)) := by
  intro h
  have herr : aggregate (some file1) =
      Except.error (AggError.keyError "intervention") := rfl
  rcases h.mp ⟨AggError.keyError "intervention", herr⟩ with h1 | ⟨c, hc, hcc⟩
  · cases h1
  · have hall : ∀ c ∈ requiredColumns, file1.columns.contains c = true := by
      decide
    rw [hall c hc] at hcc
    cases hcc

/-- C8 (amended): the Aggregator fails with an explicit error — and produces
no output — iff the input file is absent, a required column is missing, or
one of the two group labels occurs in no row (the KeyError at
`diff[(subscale, group)]`); in all other cases it succeeds. -/
theorem aggregate_failure_iff (file : Option InputFile) :
    (∃ e, aggregate file = Except.error e) ↔
      (file = none ∨
       ∃ f, file = some f ∧
         ((∃ c ∈ requiredColumns, f.columns.contains c = false) ∨
          (∀ r ∈ f.rows, ¬ r.group = "intervention") ∨
          (∀ r ∈ f.rows, ¬ r.group = "control"))) := by
  cases file with
  | none =>
    constructor
    · intro _
      exact Or.inl rfl
    · intro _
      exact ⟨AggError.fileNotFound, rfl⟩
  | some f =>
    rw [except_error_iff, aggregate_some_ok]
    constructor
    · intro h
      right
      refine ⟨f, rfl, ?_⟩
      by_contra hno
      push_neg at hno
      obtain ⟨hcols, hint, hctl⟩ := hno
      apply h
      refine ⟨?_, ?_, ?_⟩
      · rw [List.all_eq_true]
        intro c hcmem
        have hcon := hcols c hcmem
        revert hcon
        cases f.columns.contains c
        · intro hcon
          exact absurd rfl hcon
        · intro _
          rfl
      · rw [List.any_eq_true]
        obtain ⟨r, hr, hrg⟩ := hint
        exact ⟨r, hr, by rw [beq_iff_eq]; exact hrg⟩
      · rw [List.any_eq_true]
        obtain ⟨r, hr, hrg⟩ := hctl
        exact ⟨r, hr, by rw [beq_iff_eq]; exact hrg⟩
    · rintro (h | ⟨f2, hf2, hbad⟩)
      · cases h
      · cases hf2
        intro ⟨hcols, hint, hctl⟩
        rcases hbad with ⟨c, hc, hcc⟩ | hno | hno
        · rw [List.all_eq_true] at hcols
          rw [hcols c hc] at hcc
          cases hcc
        · rw [List.any_eq_true] at hint
          obtain ⟨r, hr, hrg⟩ := hint
          exact hno r hr (beq_iff_eq.mp hrg)
        · rw [List.any_eq_true] at hctl
          obtain ⟨r, hr, hrg⟩ := hctl
          exact hno r hr (beq_iff_eq.mp hrg)

end Dass21
